import Mathlib

/-!
# loggo: a leveled logging facade over Go's `log` package

Shallow embedding of `logging.go` together with the part of Go's standard
`log` / `fmt` packages that `logging.go` calls (`log.New`, `Logger.Print`,
`Logger.Printf`, `Logger.Output`, `formatHeader`, `itoa`, `fmt.Sprint`,
`log.SetPrefix`, `log.Fatal`, `log.Fatalf`).

Text is modelled as `String`.  Go strings are byte sequences; the only byte
the code inspects is the newline `'\n'`, which in UTF-8 occurs only as the
newline character itself, so inspecting the last character is the same as
inspecting the last byte.

A nil `*log.Logger` is `none`; dereferencing it is the outcome `panicked`.
-/

namespace Loggo

/-! ## Go's `log` package: flags -/

/-- Flag bit `log.Ldate`: the date, `2009/01/23`. -/
def Ldate : Nat := 1
/-- Flag bit `log.Ltime`: the time, `01:23:23`. -/
def Ltime : Nat := 2
/-- Flag bit `log.Lmicroseconds`: microsecond resolution. -/
def Lmicroseconds : Nat := 4
/-- Flag bit `log.Llongfile`: full file name and line number. -/
def Llongfile : Nat := 8
/-- Flag bit `log.Lshortfile`: final file name element and line number. -/
def Lshortfile : Nat := 16
/-- Flag bit `log.LUTC`: use UTC rather than the local time zone. -/
def LUTC : Nat := 32
/-- Flag bit of `log` that moves the tag from the line start to before the message. -/
def Lmsgprefix : Nat := 64
/-- Initial flags of the standard logger, `log.LstdFlags = Ldate | Ltime`. -/
def LstdFlags : Nat := Ldate ||| Ltime

/-! ## `logging.go`: constants -/

def log_emerg : String := "<0>"
def log_alert : String := "<1>"
def log_crit : String := "<2>"
def log_err : String := "<3>"
def log_warn : String := "<4>"
def log_notice : String := "<5>"
def log_info : String := "<6>"
def log_debug : String := "<7>"

/-- Source: `errorFlags = log.Ldate | log.Ltime | log.Lshortfile`. -/
def errorFlags : Nat := Ldate ||| Ltime ||| Lshortfile
/-- Source: `standardFlags = log.LstdFlags` (declared, used nowhere). -/
def standardFlags : Nat := LstdFlags

/-! ## Data model -/

/-- Destination streams of the process (`os.Stdout`, `os.Stderr`). -/
inductive Stream where
  | Stdout
  | Stderr
  deriving DecidableEq

/-- The fields of a `log.Logger` that `log.New` sets: destination, line tag
(Go's field is called prefix) and flags. -/
structure Logger where
  out : Stream
  pre : String
  flag : Nat
  deriving DecidableEq

/-- Source: `log.New(out, prefix, flag)`. -/
def New (out : Stream) (pre : String) (flag : Nat) : Logger :=
  { out := out, pre := pre, flag := flag }

/-- Wall-clock reading, as returned by `t.Date()`, `t.Clock()`, `t.Nanosecond()`. -/
structure Time where
  year : Nat
  month : Nat
  day : Nat
  hour : Nat
  min : Nat
  sec : Nat
  nsec : Nat
  deriving DecidableEq

/-- An operand of a variadic `...interface{}` argument list: its kind decides
whether `fmt.Sprint` separates it from its neighbour.  `other` is any operand
that is not of string kind (an error, a struct, a `Stringer`), carried with
its `%v` rendering. -/
inductive Value where
  | str (s : String)
  | int (n : Int)
  | bool (b : Bool)
  | nil
  | other (rendered : String)
  deriving DecidableEq

/-- What the Go runtime supplies to one logging call. -/
structure Env where
  /-- Reading of `time.Now()`. -/
  now : Time
  /-- The same instant converted by `t.UTC()`. -/
  utc : Time
  /-- Result `(file, line)` of `runtime.Caller(2)` inside `Logger.Output`, or
  `none` when it reports `ok = false`.  The frame it resolves is the function
  of `logging.go` that called the logger, identified here by the source line
  of that call. -/
  Caller : Nat → Option (String × Nat)
  /-- Go's `fmt.Sprintf`. -/
  Sprintf : String → List Value → String

/-- Process-wide state: the eight package-level `*log.Logger` variables of
`logging.go` (`none` is nil), the standard logger of package `log`, and the
writes received so far by each stream (one entry per `Write` call). -/
structure World where
  emergencyLogger : Option Logger
  alertLogger : Option Logger
  criticalLogger : Option Logger
  errorLogger : Option Logger
  warningLogger : Option Logger
  noticeLogger : Option Logger
  infoLogger : Option Logger
  debugLogger : Option Logger
  std : Logger
  stderr : List String
  stdout : List String
  deriving DecidableEq

/-- How a call ends: it returns, it panics (nil pointer dereference), or the
process exits with a status (`os.Exit`). -/
inductive Outcome where
  | returned (w : World)
  | panicked (w : World)
  | exited (code : Nat) (w : World)
  deriving DecidableEq

/-- Source: `out.Write(buf)`: one write appended to the destination stream. -/
def World.Write (w : World) (out : Stream) (buf : String) : World :=
  match out with
  | .Stderr => { w with stderr := w.stderr ++ [buf] }
  | .Stdout => { w with stdout := w.stdout ++ [buf] }

/-- Process start: the eight loggers are nil, the standard logger is
`log.New(os.Stderr, "", log.LstdFlags)`, nothing has been written. -/
def World.start : World :=
  { emergencyLogger := none, alertLogger := none, criticalLogger := none,
    errorLogger := none, warningLogger := none, noticeLogger := none,
    infoLogger := none, debugLogger := none,
    std := New .Stderr "" LstdFlags, stderr := [], stdout := [] }

/-- The state in which `Init` was never called: all eight logger variables
still hold nil; the rest of the process state is that of `w`. -/
def World.uninit (w : World) : World :=
  { w with
    emergencyLogger := none, alertLogger := none, criticalLogger := none,
    errorLogger := none, warningLogger := none, noticeLogger := none,
    infoLogger := none, debugLogger := none }

/-! ## Go's `fmt.Sprint` -/

/-- Source (`fmt`): `isString := arg != nil && reflect.TypeOf(arg).Kind() == reflect.String`. -/
def Value.isString : Value → Bool
  | .str _ => true
  | _ => false

/-- Source (`fmt`): `p.printArg(arg, 'v')`. -/
def Value.render : Value → String
  | .str s => s
  | .int n => toString n
  | .bool b => if b then "true" else "false"
  | .nil => "<nil>"
  | .other r => r

/-- Source (`fmt`): the loop of `(*pp).doPrint`, which adds a space between
two operands when neither is a string. -/
def doPrint : List Value → Nat → Bool → String → String
  | [], _, _, buf => buf
  | arg :: rest, argNum, prevString, buf =>
    let isString := arg.isString
    let buf := if argNum > 0 ∧ !isString ∧ !prevString then buf ++ " " else buf
    doPrint rest (argNum + 1) isString (buf ++ arg.render)

/-- Source (`fmt`): `fmt.Sprint(a...)`. -/
def Sprint (a : List Value) : String :=
  doPrint a 0 false ""

/-! ## Go's `log` package: header and output -/

/-- Loop of `itoa`: `for i >= 10 || wid > 1 { wid--; q := i / 10;
b[bp] = byte('0' + i - q*10); bp--; i = q }` followed by `b[bp] = byte('0' + i)`.
Digits go least significant first into `var b [20]byte`, so the body runs at
most 19 times before the last digit is stored; every Go `int` with the widths
`formatHeader` passes (at most 6) stays within that. -/
def itoaLoop : Nat → Nat → Int → List Char → List Char
  | 0, i, _, b => Char.ofNat (48 + i % 10) :: b
  | fuel + 1, i, wid, b =>
    if i ≥ 10 ∨ wid > 1 then
      itoaLoop fuel (i / 10) (wid - 1) (Char.ofNat (48 + (i - i / 10 * 10)) :: b)
    else
      Char.ofNat (48 + i) :: b

/-- Source (`log`): `itoa(buf, i, wid)`: decimal, zero-padded to `wid`. -/
def itoa (i : Nat) (wid : Int) : String :=
  ⟨itoaLoop 19 i wid []⟩

/-- Loop of the `Lshortfile` branch: `for i := len(file) - 1; i > 0; i--`,
cutting after the last `'/'` found at an index above 0. -/
def shortLoop (file : List Char) : Nat → List Char
  | 0 => file
  | i + 1 => if file.get? (i + 1) = some '/' then file.drop (i + 2) else shortLoop file i

/-- The `Lshortfile` branch of `formatHeader`. -/
def shortFile (file : String) : String :=
  ⟨shortLoop file.data (file.data.length - 1)⟩

/-- The date block of `formatHeader`: `2009/01/23`. -/
def dateText (t : Time) : String :=
  itoa t.year 4 ++ "/" ++ itoa t.month 2 ++ "/" ++ itoa t.day 2

/-- The clock block of `formatHeader` without microseconds: `01:23:23`. -/
def clockText (t : Time) : String :=
  itoa t.hour 2 ++ ":" ++ itoa t.min 2 ++ ":" ++ itoa t.sec 2

/-- Source (`log`): `formatHeader(buf, prefix, t, file, line, flag)`, the
text it appends to an empty buffer. -/
def formatHeader (pre : String) (now utc : Time) (file : String) (line : Nat)
    (flag : Nat) : String :=
  let buf := if flag &&& Lmsgprefix = 0 then pre else ""
  let buf :=
    if flag &&& (Ldate ||| Ltime ||| Lmicroseconds) ≠ 0 then
      let t := if flag &&& LUTC ≠ 0 then utc else now
      let buf := if flag &&& Ldate ≠ 0 then buf ++ dateText t ++ " " else buf
      if flag &&& (Ltime ||| Lmicroseconds) ≠ 0 then
        let buf := buf ++ clockText t
        let buf :=
          if flag &&& Lmicroseconds ≠ 0 then buf ++ "." ++ itoa (t.nsec / 1000) 6 else buf
        buf ++ " "
      else buf
    else buf
  let buf :=
    if flag &&& (Lshortfile ||| Llongfile) ≠ 0 then
      let file := if flag &&& Lshortfile ≠ 0 then shortFile file else file
      buf ++ file ++ ":" ++ itoa line (-1) ++ ": "
    else buf
  if flag &&& Lmsgprefix ≠ 0 then buf ++ pre else buf

/-- The terminator `Logger.Output` appends after the message `s`:
`if len(s) == 0 || s[len(s)-1] != '\n' { buf = append(buf, '\n') }`. -/
def terminator (s : String) : String :=
  if s.data.length = 0 ∨ s.data.getLast? ≠ some '\n' then "\n" else ""

/-- Source (`log`): the caller lookup at the head of `Logger.Output`:
under `Lshortfile` or `Llongfile`, `_, file, line, ok = runtime.Caller(calldepth)`
with `file = "???"`, `line = 0` when not `ok`; otherwise both stay zero. -/
def Logger.callerInfo (l : Logger) (e : Env) (site : Nat) : String × Nat :=
  if l.flag &&& (Lshortfile ||| Llongfile) ≠ 0 then
    match e.Caller site with
    | some r => r
    | none => ("???", 0)
  else ("", 0)

/-- Source (`log`): the buffer `Logger.Output(2, s)` hands to `l.out.Write`.
`site` identifies the frame `runtime.Caller(2)` resolves. -/
def Logger.Output (l : Logger) (e : Env) (site : Nat) (s : String) : String :=
  formatHeader l.pre e.now e.utc (l.callerInfo e site).1 (l.callerInfo e site).2 l.flag ++
    s ++ terminator s

/-- Source (`log`): `func (l *Logger) Print(v ...any) { l.Output(2, fmt.Sprint(v...)) }`.
A nil receiver is dereferenced inside `Output` before anything is written. -/
def Logger.Print (l : Option Logger) (e : Env) (site : Nat) (v : List Value)
    (w : World) : Outcome :=
  match l with
  | none => .panicked w
  | some l => .returned (w.Write l.out (l.Output e site (Sprint v)))

/-- Source (`log`): `func (l *Logger) Printf(format string, v ...any)
{ l.Output(2, fmt.Sprintf(format, v...)) }`. -/
def Logger.Printf (l : Option Logger) (e : Env) (site : Nat) (format : String)
    (v : List Value) (w : World) : Outcome :=
  match l with
  | none => .panicked w
  | some l => .returned (w.Write l.out (l.Output e site (e.Sprintf format v)))

/-- Source (`log`): `log.SetPrefix(p)` on the standard logger. -/
def SetPrefix (p : String) (w : World) : World :=
  { w with std := { w.std with pre := p } }

/-- Source (`log`): `func Fatal(v ...any) { std.Output(2, fmt.Sprint(v...)); os.Exit(1) }`. -/
def logFatal (e : Env) (site : Nat) (v : List Value) (w : World) : Outcome :=
  .exited 1 (w.Write w.std.out (w.std.Output e site (Sprint v)))

/-- Source (`log`): `func Fatalf(format string, v ...any)
{ std.Output(2, fmt.Sprintf(format, v...)); os.Exit(1) }`. -/
def logFatalf (e : Env) (site : Nat) (format : String) (v : List Value)
    (w : World) : Outcome :=
  .exited 1 (w.Write w.std.out (w.std.Output e site (e.Sprintf format v)))

/-! ## `logging.go`: operations -/

/-- Source: `func Init()`: all eight loggers are built on `os.Stderr` with
their tag and `errorFlags`. -/
def Init (w : World) : World :=
  { w with
    emergencyLogger := some (New .Stderr log_emerg errorFlags),
    alertLogger := some (New .Stderr log_alert errorFlags),
    criticalLogger := some (New .Stderr log_crit errorFlags),
    errorLogger := some (New .Stderr log_err errorFlags),
    warningLogger := some (New .Stderr log_warn errorFlags),
    noticeLogger := some (New .Stderr log_notice errorFlags),
    infoLogger := some (New .Stderr log_info errorFlags),
    debugLogger := some (New .Stderr log_debug errorFlags) }

/-- Source, line 51: `log.SetPrefix(log_crit); log.Fatal(v...)`. -/
def Fatal (e : Env) (v : List Value) (w : World) : Outcome :=
  logFatal e 53 v (SetPrefix log_crit w)

/-- Source, line 60: `log.SetPrefix(log_crit); log.Fatalf(format, v...)`. -/
def Fatalf (e : Env) (format : String) (v : List Value) (w : World) : Outcome :=
  logFatalf e 62 format v (SetPrefix log_crit w)

/-- Source, line 69: `emergencyLogger.Print(v...)`. -/
def Emergency (e : Env) (v : List Value) (w : World) : Outcome :=
  Logger.Print w.emergencyLogger e 70 v w

/-- Source, line 77: `emergencyLogger.Printf(format, v...)`. -/
def Emergencyf (e : Env) (format : String) (v : List Value) (w : World) : Outcome :=
  Logger.Printf w.emergencyLogger e 78 format v w

/-- Source, line 84: `alertLogger.Print(v...)`. -/
def Alert (e : Env) (v : List Value) (w : World) : Outcome :=
  Logger.Print w.alertLogger e 85 v w

/-- Source, line 91: `alertLogger.Printf(format, v...)`. -/
def Alertf (e : Env) (format : String) (v : List Value) (w : World) : Outcome :=
  Logger.Printf w.alertLogger e 92 format v w

/-- Source, line 98: `criticalLogger.Print(v...)`. -/
def Critical (e : Env) (v : List Value) (w : World) : Outcome :=
  Logger.Print w.criticalLogger e 99 v w

/-- Source, line 105: `criticalLogger.Printf(format, v...)`. -/
def Criticalf (e : Env) (format : String) (v : List Value) (w : World) : Outcome :=
  Logger.Printf w.criticalLogger e 106 format v w

/-- Source, line 112: `errorLogger.Print(v...)`. -/
def Error (e : Env) (v : List Value) (w : World) : Outcome :=
  Logger.Print w.errorLogger e 113 v w

/-- Source, line 119: `errorLogger.Printf(format, v...)`. -/
def Errorf (e : Env) (format : String) (v : List Value) (w : World) : Outcome :=
  Logger.Printf w.errorLogger e 120 format v w

/-- Source, line 126: `warningLogger.Print(v...)`. -/
def Warn (e : Env) (v : List Value) (w : World) : Outcome :=
  Logger.Print w.warningLogger e 127 v w

/-- Source, line 133: `warningLogger.Printf(format, v...)`. -/
def Warnf (e : Env) (format : String) (v : List Value) (w : World) : Outcome :=
  Logger.Printf w.warningLogger e 134 format v w

/-- Source, line 140: `noticeLogger.Print(v...)`. -/
def Notice (e : Env) (v : List Value) (w : World) : Outcome :=
  Logger.Print w.noticeLogger e 141 v w

/-- Source, line 147: `noticeLogger.Printf(format, v...)`. -/
def Noticef (e : Env) (format : String) (v : List Value) (w : World) : Outcome :=
  Logger.Printf w.noticeLogger e 148 format v w

/-- Source, line 154: `infoLogger.Print(v...)`. -/
def Info (e : Env) (v : List Value) (w : World) : Outcome :=
  Logger.Print w.infoLogger e 155 v w

/-- Source, line 161: `infoLogger.Printf(format, v...)`. -/
def Infof (e : Env) (format : String) (v : List Value) (w : World) : Outcome :=
  Logger.Printf w.infoLogger e 162 format v w

/-- Source, line 168: `debugLogger.Print(v...)`. -/
def Debug (e : Env) (v : List Value) (w : World) : Outcome :=
  Logger.Print w.debugLogger e 169 v w

/-- Source, line 175: `debugLogger.Printf(format, v...)`. -/
def Debugf (e : Env) (format : String) (v : List Value) (w : World) : Outcome :=
  Logger.Printf w.debugLogger e 176 format v w

/-- Source, line 182: `debugLogger.Print(v...)`. -/
def Print (e : Env) (v : List Value) (w : World) : Outcome :=
  Logger.Print w.debugLogger e 183 v w

/-- Source, line 189: `debugLogger.Printf(format, v...)`. -/
def Printf (e : Env) (format : String) (v : List Value) (w : World) : Outcome :=
  Logger.Printf w.debugLogger e 190 format v w

/-! ## Vocabulary of the specification -/

/-- The eight severity levels. -/
inductive Level where
  | emergency
  | alert
  | critical
  | error
  | warning
  | notice
  | info
  | debug
  deriving DecidableEq

/-- The tag table as the specification writes it (section 4.1). -/
def Level.specTag : Level → String
  | .emergency => "<0>"
  | .alert => "<1>"
  | .critical => "<2>"
  | .error => "<3>"
  | .warning => "<4>"
  | .notice => "<5>"
  | .info => "<6>"
  | .debug => "<7>"

/-- The entry point `L(values...)` of `logging.go` for level `L`. -/
def Level.print : Level → Env → List Value → World → Outcome
  | .emergency => Emergency
  | .alert => Alert
  | .critical => Critical
  | .error => Error
  | .warning => Warn
  | .notice => Notice
  | .info => Info
  | .debug => Debug

/-- The entry point `Lf(format, values...)` of `logging.go` for level `L`. -/
def Level.printf : Level → Env → String → List Value → World → Outcome
  | .emergency => Emergencyf
  | .alert => Alertf
  | .critical => Criticalf
  | .error => Errorf
  | .warning => Warnf
  | .notice => Noticef
  | .info => Infof
  | .debug => Debugf

/-- Source line of the logger call inside `L(values...)`. -/
def Level.printSite : Level → Nat
  | .emergency => 70
  | .alert => 85
  | .critical => 99
  | .error => 113
  | .warning => 127
  | .notice => 141
  | .info => 155
  | .debug => 169

/-- Source line of the logger call inside `Lf(format, values...)`. -/
def Level.printfSite : Level → Nat
  | .emergency => 78
  | .alert => 92
  | .critical => 106
  | .error => 120
  | .warning => 134
  | .notice => 148
  | .info => 162
  | .debug => 176

/-- The logger variable of `logging.go` that the entry points of level `L`
call (`Emergency` and `Emergencyf` call `emergencyLogger`, and so on). -/
def Level.logger : Level → World → Option Logger
  | .emergency, w => w.emergencyLogger
  | .alert, w => w.alertLogger
  | .critical, w => w.criticalLogger
  | .error, w => w.errorLogger
  | .warning, w => w.warningLogger
  | .notice, w => w.noticeLogger
  | .info, w => w.infoLogger
  | .debug, w => w.debugLogger

/-- The `file:line: ` block `formatHeader` writes under `Lshortfile` for the
frame at `site`; `Logger.Output` substitutes `file = "???"`, `line = 0` when
the runtime cannot resolve the frame. -/
def fileText (e : Env) (site : Nat) : String :=
  shortFile ((e.Caller site).getD ("???", 0)).1 ++ ":" ++
    itoa ((e.Caller site).getD ("???", 0)).2 (-1) ++ ": "

/-! ## Concrete inputs used in evaluations -/

/-- 23 January 2009, 01:23:23. -/
def sampleTime : Time :=
  { year := 2009, month := 1, day := 23, hour := 1, min := 23, sec := 23, nsec := 0 }

/-- A runtime that resolves every frame of the package to
`/go/src/loggo/logging.go` and renders a format without verbs as itself. -/
def sampleEnv : Env :=
  { now := sampleTime, utc := sampleTime,
    Caller := fun site => some ("/go/src/loggo/logging.go", site),
    Sprintf := fun format _ => format }

/-- Process start after the host program has called
`log.SetFlags(log.LstdFlags | log.Lmsgprefix)` on the standard logger. -/
def tagMovedWorld : World :=
  { World.start with std := New .Stderr "" (LstdFlags ||| Lmsgprefix) }

/-! ## Lemmas on the embedded library code -/

theorem formatHeader_errorFlags (pre : String) (now utc : Time) (file : String) (line : Nat) :
    formatHeader pre now utc file line errorFlags =
      pre ++ dateText now ++ " " ++ clockText now ++ " " ++
        shortFile file ++ ":" ++ itoa line (-1) ++ ": " := by
  have h1 : errorFlags &&& Lmsgprefix = 0 := by decide
  have h2 : errorFlags &&& (Ldate ||| Ltime ||| Lmicroseconds) ≠ 0 := by decide
  have h3 : ¬ (errorFlags &&& LUTC ≠ 0) := by decide
  have h4 : errorFlags &&& Ldate ≠ 0 := by decide
  have h5 : errorFlags &&& (Ltime ||| Lmicroseconds) ≠ 0 := by decide
  have h6 : ¬ (errorFlags &&& Lmicroseconds ≠ 0) := by decide
  have h7 : errorFlags &&& (Lshortfile ||| Llongfile) ≠ 0 := by decide
  have h8 : errorFlags &&& Lshortfile ≠ 0 := by decide
  simp only [formatHeader, h1, h2, h3, h4, h5, h6, h7, h8, if_true, if_false, ne_eq,
    not_true_eq_false, not_false_eq_true]

theorem formatHeader_LstdFlags (pre : String) (now utc : Time) (file : String) (line : Nat) :
    formatHeader pre now utc file line LstdFlags =
      pre ++ dateText now ++ " " ++ clockText now ++ " " := by
  have h1 : LstdFlags &&& Lmsgprefix = 0 := by decide
  have h2 : LstdFlags &&& (Ldate ||| Ltime ||| Lmicroseconds) ≠ 0 := by decide
  have h3 : ¬ (LstdFlags &&& LUTC ≠ 0) := by decide
  have h4 : LstdFlags &&& Ldate ≠ 0 := by decide
  have h5 : LstdFlags &&& (Ltime ||| Lmicroseconds) ≠ 0 := by decide
  have h6 : ¬ (LstdFlags &&& Lmicroseconds ≠ 0) := by decide
  have h7 : ¬ (LstdFlags &&& (Lshortfile ||| Llongfile) ≠ 0) := by decide
  simp only [formatHeader, h1, h2, h3, h4, h5, h6, h7, if_true, if_false, ne_eq,
    not_true_eq_false, not_false_eq_true]

/-- When the tag is not moved before the message, the header is the tag
followed by the header of an untagged logger. -/
theorem formatHeader_tag_first (pre : String) (now utc : Time) (file : String) (line : Nat)
    (flag : Nat) (h : flag &&& Lmsgprefix = 0) :
    formatHeader pre now utc file line flag =
      pre ++ formatHeader "" now utc file line flag := by
  unfold formatHeader
  simp only [h, ne_eq, not_true_eq_false, if_true, if_false]
  split_ifs <;> simp only [String.append_assoc, String.empty_append, String.append_empty]

theorem Output_errorFlags (out : Stream) (pre : String) (e : Env) (site : Nat) (s : String) :
    (New out pre errorFlags).Output e site s =
      pre ++ dateText e.now ++ " " ++ clockText e.now ++ " " ++ fileText e site ++
        s ++ terminator s := by
  have h7 : errorFlags &&& (Lshortfile ||| Llongfile) ≠ 0 := by decide
  simp only [Logger.Output, Logger.callerInfo, New, h7, if_true, ne_eq, not_false_eq_true,
    fileText, formatHeader_errorFlags]
  cases e.Caller site <;> simp only [String.append_assoc, Option.getD]

theorem Output_LstdFlags (l : Logger) (h : l.flag = LstdFlags) (e : Env) (site : Nat)
    (s : String) :
    l.Output e site s =
      l.pre ++ dateText e.now ++ " " ++ clockText e.now ++ " " ++ s ++ terminator s := by
  simp only [Logger.Output, h, formatHeader_LstdFlags]

/-- A text ends in a newline exactly when its last character is `'\n'`. -/
theorem ends_newline_iff (s : String) :
    (∃ body : String, s = body ++ "\n") ↔ s.data.getLast? = some '\n' := by
  constructor
  · rintro ⟨body, rfl⟩
    simp
  · intro h
    refine ⟨⟨s.data.dropLast⟩, ?_⟩
    apply String.ext
    simp only [String.data_append]
    exact (List.dropLast_append_getLast? _ (by simpa using h)).symm

theorem terminator_of_ends (s : String) (h : ∃ body : String, s = body ++ "\n") :
    terminator s = "" := by
  have h1 := (ends_newline_iff s).1 h
  have h2 : s.data.length ≠ 0 := by
    intro h0
    have h3 : s.data = [] := List.length_eq_zero.mp h0
    rw [h3] at h1
    simp at h1
  unfold terminator
  rw [if_neg]
  push_neg
  exact ⟨h2, h1⟩

theorem terminator_of_not_ends (s : String) (h : ¬ ∃ body : String, s = body ++ "\n") :
    terminator s = "\n" := by
  have h1 : ¬ s.data.getLast? = some '\n' := fun h' => h ((ends_newline_iff s).2 h')
  simp [terminator, h1]

theorem terminator_cases (s : String) :
    ((∃ b : String, s = b ++ "\n") ∧ terminator s = "") ∨
    ((¬ ∃ b : String, s = b ++ "\n") ∧ terminator s = "\n") := by
  by_cases hs : ∃ b : String, s = b ++ "\n"
  · exact Or.inl ⟨hs, terminator_of_ends s hs⟩
  · exact Or.inr ⟨hs, terminator_of_not_ends s hs⟩

theorem message_terminator_ends (s : String) :
    ∃ body : String, s ++ terminator s = body ++ "\n" := by
  by_cases h : ∃ body : String, s = body ++ "\n"
  · obtain ⟨body, hb⟩ := h
    refine ⟨body, ?_⟩
    rw [terminator_of_ends s ⟨body, hb⟩, String.append_empty]
    exact hb
  · exact ⟨s, by rw [terminator_of_not_ends s h]⟩

/-- After `Init`, `L(values...)` performs one write on the error stream: tag,
date, time, `file:line: ` of the calling frame, message, terminator. -/
theorem print_after_Init (L : Level) (e : Env) (v : List Value) (w : World) :
    L.print e v (Init w) =
      .returned ((Init w).Write .Stderr
        (L.specTag ++ dateText e.now ++ " " ++ clockText e.now ++ " " ++
          fileText e L.printSite ++ Sprint v ++ terminator (Sprint v))) := by
  cases L <;>
    simp only [Level.print, Emergency, Alert, Critical, Error, Warn, Notice, Info, Debug,
      Init, Logger.Print, Output_errorFlags] <;> rfl

/-- After `Init`, `Lf(format, values...)` performs one write on the error
stream: tag, date, time, `file:line: ` of the calling frame, message,
terminator. -/
theorem printf_after_Init (L : Level) (e : Env) (format : String) (v : List Value)
    (w : World) :
    L.printf e format v (Init w) =
      .returned ((Init w).Write .Stderr
        (L.specTag ++ dateText e.now ++ " " ++ clockText e.now ++ " " ++
          fileText e L.printfSite ++ e.Sprintf format v ++
          terminator (e.Sprintf format v))) := by
  cases L <;>
    simp only [Level.printf, Emergencyf, Alertf, Criticalf, Errorf, Warnf, Noticef, Infof,
      Debugf, Init, Logger.Printf, Output_errorFlags] <;> rfl

theorem specTag_injective : Function.Injective Level.specTag := by
  intro a b h
  cases a <;> cases b <;> first | rfl | exact absurd h (by decide)

/-! ## The claims -/

/-- C1: after `Init`, for every level `L` and every arguments, the text written
by `L(values...)` and by `Lf(format, values...)` begins with the tag the table
gives `L`, and the table maps distinct levels to distinct tags. -/
theorem level_line_begins_with_tag (L : Level) (e : Env) (format : String)
    (v : List Value) (w : World) :
    (∃ rest, L.print e v (Init w) =
        .returned ((Init w).Write .Stderr (L.specTag ++ rest))) ∧
    (∃ rest, L.printf e format v (Init w) =
        .returned ((Init w).Write .Stderr (L.specTag ++ rest))) ∧
    Function.Injective Level.specTag := by
  refine ⟨⟨dateText e.now ++ " " ++ clockText e.now ++ " " ++
      fileText e L.printSite ++ Sprint v ++ terminator (Sprint v), ?_⟩,
    ⟨dateText e.now ++ " " ++ clockText e.now ++ " " ++
      fileText e L.printfSite ++ e.Sprintf format v ++ terminator (e.Sprintf format v), ?_⟩,
    specTag_injective⟩
  · rw [print_after_Init]
    simp only [String.append_assoc]
  · rw [printf_after_Init]
    simp only [String.append_assoc]

/-- C2, as stated, fails: `Info("x")` after `Init` writes
`<6>2009/01/23 01:23:23 logging.go:155: x`, with a `file:line: ` field between
the time and the message, because `Init` gives `infoLogger` the flags
`errorFlags`, which contain `Lshortfile`; the line is not tag, date, time,
message. -/
theorem info_line_carries_file_field :
    Info sampleEnv [.str "x"] (Init World.start) =
      .returned ((Init World.start).Write .Stderr
        "<6>2009/01/23 01:23:23 logging.go:155: x\n") ∧
    Info sampleEnv [.str "x"] (Init World.start) ≠
      .returned ((Init World.start).Write .Stderr
        (log_info ++ dateText sampleEnv.now ++ " " ++ clockText sampleEnv.now ++ " " ++
          Sprint [.str "x"] ++ "\n")) ∧
    (Init World.start).infoLogger = some (New .Stderr log_info errorFlags) ∧
    errorFlags &&& Lshortfile ≠ 0 ∧
    errorFlags ≠ LstdFlags := by
  refine ⟨by decide, by decide, rfl, by decide, by decide⟩

/-- C2, amended: after `Init`, for every level `L` and every message, the line
written by `L` / `Lf` is tag, date, `" "`, time, `" "`, source file, `":"`,
line number, `": "`, message, and then `"\n"` unless the message already ends
in one: each of the eight level writers is configured with the date, time and
short-file flags. -/
theorem level_line_format (L : Level) (e : Env) (format : String) (v : List Value)
    (w : World) :
    L.print e v (Init w) =
      .returned ((Init w).Write .Stderr
        (L.specTag ++ dateText e.now ++ " " ++ clockText e.now ++ " " ++
          fileText e L.printSite ++ Sprint v ++ terminator (Sprint v))) ∧
    L.printf e format v (Init w) =
      .returned ((Init w).Write .Stderr
        (L.specTag ++ dateText e.now ++ " " ++ clockText e.now ++ " " ++
          fileText e L.printfSite ++ e.Sprintf format v ++
          terminator (e.Sprintf format v))) ∧
    L.logger (Init w) = some (New .Stderr L.specTag (Ldate ||| Ltime ||| Lshortfile)) :=
  ⟨print_after_Init L e v w, printf_after_Init L e format v w, by cases L <;> rfl⟩

/-- C3, as stated, fails: at process start `Fatal("boom")` writes
`<2>2009/01/23 01:23:23 boom`, which has no `file:line: ` field, because the
standard logger it writes through carries neither `Lshortfile` nor
`Llongfile`. -/
theorem fatal_line_lacks_file_field :
    Fatal sampleEnv [.str "boom"] World.start =
      .exited 1 ((SetPrefix log_crit World.start).Write .Stderr
        "<2>2009/01/23 01:23:23 boom\n") ∧
    (SetPrefix log_crit World.start).std.flag &&& (Lshortfile ||| Llongfile) = 0 ∧
    ¬ ∃ file line : String,
      "<2>2009/01/23 01:23:23 boom\n" =
        log_crit ++ dateText sampleEnv.now ++ " " ++ clockText sampleEnv.now ++ " " ++
          file ++ ":" ++ line ++ ": " ++ Sprint [.str "boom"] ++ "\n" := by
  refine ⟨by decide, by decide, ?_⟩
  rintro ⟨file, line, h⟩
  have h1 : log_crit ++ dateText sampleEnv.now ++ " " ++ clockText sampleEnv.now ++ " " =
      "<2>2009/01/23 01:23:23 " := by decide
  have h2 : Sprint [.str "boom"] = "boom" := by decide
  rw [h1, h2] at h
  have h3 := congrArg String.length h
  simp only [String.length_append] at h3
  have h4 : ("<2>2009/01/23 01:23:23 boom\n" : String).length = 28 := by decide
  have h5 : ("<2>2009/01/23 01:23:23 " : String).length = 23 := by decide
  have h6 : (":" : String).length = 1 := by decide
  have h7 : (": " : String).length = 2 := by decide
  have h8 : ("boom" : String).length = 4 := by decide
  have h9 : ("\n" : String).length = 1 := by decide
  rw [h4, h5, h6, h7, h8, h9] at h3
  omega

/-- C3, amended: for every message, when the standard logger has the flags
package `log` gives it at start-up (date and time; `logging.go` never changes
them), the line written by `Fatal` / `Fatalf` is tag `<2>`, date, `" "`, time,
`" "`, message, and then `"\n"` unless the message already ends in one, with no
source-file field; the process then exits with status 1. -/
theorem fatal_line_format (e : Env) (format : String) (v : List Value) (w : World)
    (h : w.std.flag = LstdFlags) :
    Fatal e v w =
      .exited 1 ((SetPrefix log_crit w).Write w.std.out
        ("<2>" ++ dateText e.now ++ " " ++ clockText e.now ++ " " ++
          Sprint v ++ terminator (Sprint v))) ∧
    Fatalf e format v w =
      .exited 1 ((SetPrefix log_crit w).Write w.std.out
        ("<2>" ++ dateText e.now ++ " " ++ clockText e.now ++ " " ++
          e.Sprintf format v ++ terminator (e.Sprintf format v))) := by
  have hf : (SetPrefix log_crit w).std.flag = LstdFlags := h
  constructor
  · simp only [Fatal, logFatal, Output_LstdFlags _ hf]
    rfl
  · simp only [Fatalf, logFatalf, Output_LstdFlags _ hf]
    rfl

theorem fatal_line_format_witness :
    World.start.std.flag = LstdFlags ∧
    Fatal sampleEnv [.str "boom"] World.start =
      .exited 1 ((SetPrefix log_crit World.start).Write World.start.std.out
        ("<2>" ++ dateText sampleEnv.now ++ " " ++ clockText sampleEnv.now ++ " " ++
          Sprint [.str "boom"] ++ terminator (Sprint [.str "boom"]))) :=
  ⟨rfl, (fatal_line_format sampleEnv "" [.str "boom"] World.start rfl).1⟩

/-! ### `fmt.Sprint`: where the separator goes -/

theorem doPrint_argNum (l : List Value) (n : Nat) (prev : Bool) (buf : String) :
    doPrint l (n + 1) prev buf = doPrint l 1 prev buf := by
  induction l generalizing n prev buf with
  | nil => rfl
  | cons a rest ih =>
    simp only [doPrint, Nat.succ_pos, true_and, Nat.lt_add_one]
    rw [ih (n + 1), ih 1]

theorem doPrint_buf (l : List Value) (prev : Bool) (buf : String) :
    doPrint l 1 prev buf = buf ++ doPrint l 1 prev "" := by
  induction l generalizing prev buf with
  | nil => simp [doPrint]
  | cons a rest ih =>
    simp only [doPrint, Nat.lt_add_one, true_and]
    rw [doPrint_argNum, ih, doPrint_argNum rest 1, ih _ (_ ++ a.render)]
    split_ifs <;> simp only [String.append_assoc, String.empty_append]

theorem Sprint_cons_cons (a b : Value) (rest : List Value) :
    Sprint (a :: b :: rest) =
      a.render ++ (if a.isString || b.isString then "" else " ") ++ Sprint (b :: rest) := by
  simp only [Sprint, doPrint, Nat.lt_irrefl, false_and, if_false, Nat.lt_add_one, true_and,
    String.empty_append, Nat.zero_add]
  rw [doPrint_argNum rest 1, doPrint_buf, doPrint_buf rest _ b.render]
  cases a.isString <;> cases b.isString <;>
    simp [String.append_assoc]

/-- C4, as stated, fails: `Emergency("a","b")` after `Init` writes the message
`ab`, not `a b`: `fmt.Sprint` puts no space between two operands when one of
them is a string. -/
theorem emergency_strings_not_space_joined :
    Emergency sampleEnv [.str "a", .str "b"] (Init World.start) =
      .returned ((Init World.start).Write .Stderr
        "<0>2009/01/23 01:23:23 logging.go:70: ab\n") ∧
    Sprint [.str "a", .str "b"] = "ab" ∧
    Sprint [.str "a", .str "b"] ≠
      " ".intercalate (List.map Value.render [.str "a", .str "b"]) ∧
    Emergency sampleEnv [.str "a", .str "b"] (Init World.start) ≠
      .returned ((Init World.start).Write .Stderr
        "<0>2009/01/23 01:23:23 logging.go:70: a b\n") := by
  refine ⟨by decide, by decide, by decide, by decide⟩

/-- C4, amended: after `Init`, for every level `L` and every list of values,
the message body written by `L(values...)` is the stringified values
concatenated, with a single space between an adjacent pair exactly when
neither of the two is a string; in particular `Emergency("a","b")` writes the
message `ab` and `Emergency(1,2)` writes `1 2`. -/
theorem level_message_body (L : Level) (e : Env) (v : List Value) (w : World) :
    L.print e v (Init w) =
      .returned ((Init w).Write .Stderr
        (L.specTag ++ dateText e.now ++ " " ++ clockText e.now ++ " " ++
          fileText e L.printSite ++ Sprint v ++ terminator (Sprint v))) ∧
    Sprint [] = "" ∧
    (∀ a, Sprint [a] = a.render) ∧
    (∀ a b rest, Sprint (a :: b :: rest) =
      a.render ++ (if a.isString || b.isString then "" else " ") ++ Sprint (b :: rest)) ∧
    Sprint [.str "a", .str "b"] = "ab" ∧
    Sprint [.int 1, .int 2] = "1 2" := by
  refine ⟨print_after_Init L e v w, rfl, ?_, Sprint_cons_cons, by decide, by decide⟩
  intro a
  simp [Sprint, doPrint]

/-- C5, as stated, fails: once the standard logger carries the flag
`Lmsgprefix`, `Fatal("boom")` writes `2009/01/23 01:23:23 <2>boom`, a line
that does not begin with the critical tag `<2>`: the tag stands before the
message instead. -/
theorem fatal_tag_not_at_line_start :
    Fatal sampleEnv [.str "boom"] tagMovedWorld =
      .exited 1 ((SetPrefix log_crit tagMovedWorld).Write .Stderr
        "2009/01/23 01:23:23 <2>boom\n") ∧
    tagMovedWorld.std.flag &&& Lmsgprefix ≠ 0 ∧
    ¬ ∃ rest : String, "2009/01/23 01:23:23 <2>boom\n" = "<2>" ++ rest := by
  refine ⟨by decide, by decide, ?_⟩
  rintro ⟨rest, h⟩
  have h1 := congrArg String.data h
  simp only [String.data_append] at h1
  exact absurd (List.head_eq_of_cons_eq h1) (by decide)

/-- C5, amended: for every argument list, when the standard logger keeps its
tag at the line start (flag `Lmsgprefix` clear, as at process start;
`logging.go` never sets it), `Fatal(values...)` and `Fatalf(format, values...)`
perform one write of a line that begins with the critical tag `<2>` and
contains the rendered message, and end in process exit with a non-zero status;
they do not return. -/
theorem fatal_writes_tagged_line_then_exits (e : Env) (format : String) (v : List Value)
    (w : World) (h : w.std.flag &&& Lmsgprefix = 0) :
    (∃ code hdr, code ≠ 0 ∧
      Fatal e v w =
        .exited code ((SetPrefix log_crit w).Write w.std.out
          ("<2>" ++ hdr ++ Sprint v ++ terminator (Sprint v)))) ∧
    (∃ code hdr, code ≠ 0 ∧
      Fatalf e format v w =
        .exited code ((SetPrefix log_crit w).Write w.std.out
          ("<2>" ++ hdr ++ e.Sprintf format v ++ terminator (e.Sprintf format v)))) := by
  have hf : (SetPrefix log_crit w).std.flag &&& Lmsgprefix = 0 := h
  constructor
  · refine ⟨1, formatHeader "" e.now e.utc ((SetPrefix log_crit w).std.callerInfo e 53).1
      ((SetPrefix log_crit w).std.callerInfo e 53).2 w.std.flag, by decide, ?_⟩
    simp only [Fatal, logFatal, Logger.Output]
    rw [formatHeader_tag_first _ _ _ _ _ _ hf]
    rfl
  · refine ⟨1, formatHeader "" e.now e.utc ((SetPrefix log_crit w).std.callerInfo e 62).1
      ((SetPrefix log_crit w).std.callerInfo e 62).2 w.std.flag, by decide, ?_⟩
    simp only [Fatalf, logFatalf, Logger.Output]
    rw [formatHeader_tag_first _ _ _ _ _ _ hf]
    rfl

theorem fatal_writes_tagged_line_then_exits_witness :
    World.start.std.flag &&& Lmsgprefix = 0 ∧
    ∃ code hdr, code ≠ 0 ∧
      Fatal sampleEnv [.str "boom"] World.start =
        .exited code ((SetPrefix log_crit World.start).Write World.start.std.out
          ("<2>" ++ hdr ++ Sprint [.str "boom"] ++ terminator (Sprint [.str "boom"]))) :=
  ⟨by decide,
    (fatal_writes_tagged_line_then_exits sampleEnv "" [.str "boom"] World.start
      (by decide)).1⟩

/-- C6: in the state where `Init` was never called, each of the eight level
functions `L` / `Lf`, and `Print` / `Printf`, goes through a nil logger and
panics with nothing written; after `Init` the same call returns. -/
theorem nil_logger_panics_before_Init (L : Level) (e : Env) (format : String)
    (v : List Value) (w : World) :
    L.logger w.uninit = none ∧
    L.print e v w.uninit = .panicked w.uninit ∧
    L.printf e format v w.uninit = .panicked w.uninit ∧
    Print e v w.uninit = .panicked w.uninit ∧
    Printf e format v w.uninit = .panicked w.uninit ∧
    w.uninit.stderr = w.stderr ∧ w.uninit.stdout = w.stdout ∧
    (∃ w', L.print e v (Init w.uninit) = .returned w') ∧
    (∃ w', L.printf e format v (Init w.uninit) = .returned w') ∧
    (∃ w', Print e v (Init w.uninit) = .returned w') ∧
    (∃ w', Printf e format v (Init w.uninit) = .returned w') := by
  refine ⟨?_, ?_, ?_, rfl, rfl, rfl, rfl, ⟨_, print_after_Init L e v _⟩,
    ⟨_, printf_after_Init L e format v _⟩, ⟨_, rfl⟩, ⟨_, rfl⟩⟩
  · cases L <;> rfl
  · cases L <;> rfl
  · cases L <;> rfl

/-- C7, as stated, fails: after `Init`, `Print("x")` writes
`<7>2009/01/23 01:23:23 logging.go:183: x` and `Debug("x")` writes
`<7>2009/01/23 01:23:23 logging.go:169: x`; the two calls are not
behaviourally identical, and neither are `Printf` and `Debugf`. -/
theorem print_line_differs_from_debug :
    Print sampleEnv [.str "x"] (Init World.start) =
      .returned ((Init World.start).Write .Stderr
        "<7>2009/01/23 01:23:23 logging.go:183: x\n") ∧
    Debug sampleEnv [.str "x"] (Init World.start) =
      .returned ((Init World.start).Write .Stderr
        "<7>2009/01/23 01:23:23 logging.go:169: x\n") ∧
    Print sampleEnv [.str "x"] (Init World.start) ≠
      Debug sampleEnv [.str "x"] (Init World.start) ∧
    Printf sampleEnv "x" [] (Init World.start) =
      .returned ((Init World.start).Write .Stderr
        "<7>2009/01/23 01:23:23 logging.go:190: x\n") ∧
    Debugf sampleEnv "x" [] (Init World.start) =
      .returned ((Init World.start).Write .Stderr
        "<7>2009/01/23 01:23:23 logging.go:176: x\n") ∧
    Printf sampleEnv "x" [] (Init World.start) ≠
      Debugf sampleEnv "x" [] (Init World.start) := by
  refine ⟨by decide, by decide, by decide, by decide, by decide, by decide⟩

/-- C7, amended: in every state and for every argument list,
`Print(values...)` behaves exactly as `Debug(values...)` would if the runtime
resolved the calling frame to the call site inside `Print`, and
`Printf(format, values...)` exactly as `Debugf(format, values...)` would at the
call site inside `Printf`: both pairs write through the debug-level writer.
After `Init` each call writes one line, and the two lines of a pair have the
same tag `<7>`, date, time and message body and differ only in the
`file:line: ` field of the header, which reports each function's own call
site. -/
theorem print_matches_debug (e : Env) (format : String) (v : List Value) (w : World) :
    Print e v w = Debug { e with Caller := fun _ => e.Caller 183 } v w ∧
    Printf e format v w = Debugf { e with Caller := fun _ => e.Caller 190 } format v w ∧
    Print e v (Init w) =
      .returned ((Init w).Write .Stderr
        ("<7>" ++ dateText e.now ++ " " ++ clockText e.now ++ " " ++
          fileText e 183 ++ Sprint v ++ terminator (Sprint v))) ∧
    Debug e v (Init w) =
      .returned ((Init w).Write .Stderr
        ("<7>" ++ dateText e.now ++ " " ++ clockText e.now ++ " " ++
          fileText e 169 ++ Sprint v ++ terminator (Sprint v))) ∧
    Printf e format v (Init w) =
      .returned ((Init w).Write .Stderr
        ("<7>" ++ dateText e.now ++ " " ++ clockText e.now ++ " " ++
          fileText e 190 ++ e.Sprintf format v ++ terminator (e.Sprintf format v))) ∧
    Debugf e format v (Init w) =
      .returned ((Init w).Write .Stderr
        ("<7>" ++ dateText e.now ++ " " ++ clockText e.now ++ " " ++
          fileText e 176 ++ e.Sprintf format v ++ terminator (e.Sprintf format v))) := by
  refine ⟨?_, ?_, ?_, ?_, ?_, ?_⟩
  · simp only [Print, Debug, Logger.Print]
    cases w.debugLogger <;> rfl
  · simp only [Printf, Debugf, Logger.Printf]
    cases w.debugLogger <;> rfl
  · simp only [Print, Init, Logger.Print, Output_errorFlags]
    rfl
  · simp only [Debug, Init, Logger.Print, Output_errorFlags]
    rfl
  · simp only [Printf, Init, Logger.Printf, Output_errorFlags]
    rfl
  · simp only [Debugf, Init, Logger.Printf, Output_errorFlags]
    rfl

/-- C8: after `Init`, for every level `L` and every argument list,
`L(values...)` and `Lf(format, values...)` each add exactly one write to the
error stream, whose text ends with a newline: a message that does not end in
`"\n"` gets exactly one appended, and a message that ends in `"\n"` gets
none. -/
theorem level_line_single_write_newline (L : Level) (e : Env) (format : String)
    (v : List Value) (w : World) :
    (∃ line body, L.print e v (Init w) = .returned ((Init w).Write .Stderr line) ∧
      ((Init w).Write .Stderr line).stderr = w.stderr ++ [line] ∧
      ((Init w).Write .Stderr line).stdout = w.stdout ∧
      line = body ++ "\n" ∧
      (((∃ b : String, Sprint v = b ++ "\n") ∧
          line = L.specTag ++ dateText e.now ++ " " ++ clockText e.now ++ " " ++
            fileText e L.printSite ++ Sprint v) ∨
        ((¬ ∃ b : String, Sprint v = b ++ "\n") ∧
          line = L.specTag ++ dateText e.now ++ " " ++ clockText e.now ++ " " ++
            fileText e L.printSite ++ Sprint v ++ "\n"))) ∧
    (∃ line body, L.printf e format v (Init w) = .returned ((Init w).Write .Stderr line) ∧
      ((Init w).Write .Stderr line).stderr = w.stderr ++ [line] ∧
      ((Init w).Write .Stderr line).stdout = w.stdout ∧
      line = body ++ "\n" ∧
      (((∃ b : String, e.Sprintf format v = b ++ "\n") ∧
          line = L.specTag ++ dateText e.now ++ " " ++ clockText e.now ++ " " ++
            fileText e L.printfSite ++ e.Sprintf format v) ∨
        ((¬ ∃ b : String, e.Sprintf format v = b ++ "\n") ∧
          line = L.specTag ++ dateText e.now ++ " " ++ clockText e.now ++ " " ++
            fileText e L.printfSite ++ e.Sprintf format v ++ "\n"))) := by
  constructor
  · obtain ⟨body, hb⟩ := message_terminator_ends (Sprint v)
    refine ⟨_, L.specTag ++ dateText e.now ++ " " ++ clockText e.now ++ " " ++
      fileText e L.printSite ++ body, print_after_Init L e v w, rfl, rfl, ?_, ?_⟩
    · simp only [String.append_assoc, hb]
    · rcases terminator_cases (Sprint v) with ⟨h1, h2⟩ | ⟨h1, h2⟩
      · exact Or.inl ⟨h1, by rw [h2, String.append_empty]⟩
      · exact Or.inr ⟨h1, by rw [h2]⟩
  · obtain ⟨body, hb⟩ := message_terminator_ends (e.Sprintf format v)
    refine ⟨_, L.specTag ++ dateText e.now ++ " " ++ clockText e.now ++ " " ++
      fileText e L.printfSite ++ body, printf_after_Init L e format v w, rfl, rfl, ?_, ?_⟩
    · simp only [String.append_assoc, hb]
    · rcases terminator_cases (e.Sprintf format v) with ⟨h1, h2⟩ | ⟨h1, h2⟩
      · exact Or.inl ⟨h1, by rw [h2, String.append_empty]⟩
      · exact Or.inr ⟨h1, by rw [h2]⟩

/-- C9: `Init` is idempotent in effect: from every state, calling `Init` twice
leaves the same state as calling it once, and in particular each of the eight
writers has the same destination, tag and flags. -/
theorem Init_idempotent (L : Level) (w : World) :
    Init (Init w) = Init w ∧
    L.logger (Init (Init w)) = L.logger (Init w) ∧
    L.logger (Init w) = some (New .Stderr L.specTag errorFlags) := by
  refine ⟨rfl, rfl, ?_⟩
  cases L <;> rfl

/-- C10: `Fatal` and `Fatalf` read none of the eight logger variables: in
every state, in the state where `Init` was never called and in the state after
`Init`, they do not panic, they write the same line and exit with the same
status 1; the line is written through the standard logger, whose tag they set
to `<2>`. -/
theorem fatal_independent_of_registry (e : Env) (format : String) (v : List Value)
    (w : World) :
    Fatal e v w =
      .exited 1 ((SetPrefix "<2>" w).Write w.std.out
        ((New w.std.out "<2>" w.std.flag).Output e 53 (Sprint v))) ∧
    Fatal e v w.uninit =
      .exited 1 ((SetPrefix "<2>" w.uninit).Write w.std.out
        ((New w.std.out "<2>" w.std.flag).Output e 53 (Sprint v))) ∧
    Fatal e v (Init w) =
      .exited 1 ((SetPrefix "<2>" (Init w)).Write w.std.out
        ((New w.std.out "<2>" w.std.flag).Output e 53 (Sprint v))) ∧
    Fatalf e format v w =
      .exited 1 ((SetPrefix "<2>" w).Write w.std.out
        ((New w.std.out "<2>" w.std.flag).Output e 62 (e.Sprintf format v))) ∧
    Fatalf e format v w.uninit =
      .exited 1 ((SetPrefix "<2>" w.uninit).Write w.std.out
        ((New w.std.out "<2>" w.std.flag).Output e 62 (e.Sprintf format v))) ∧
    Fatalf e format v (Init w) =
      .exited 1 ((SetPrefix "<2>" (Init w)).Write w.std.out
        ((New w.std.out "<2>" w.std.flag).Output e 62 (e.Sprintf format v))) ∧
    (SetPrefix "<2>" w).std = New w.std.out "<2>" w.std.flag :=
  ⟨rfl, rfl, rfl, rfl, rfl, rfl, rfl⟩

end Loggo
